import Mathlib

/-!
# Verification of the `thinking-gavin` relay handler

Shallow embedding of `src/thinking_gavin.py`, a single Flask handler that
relays a chat command to the memegenerator.net API and formats the result.

Modelling choices:
* JSON values are the inductive `Json` (objects as association lists).
* A Python string that may be `None` is `Option String`.
* The HTTP layer is abstracted by an oracle `http : MemeRequest → HttpResponse`;
  an `HttpResponse` carries `ok` (success status), the raw body text, and the
  result of JSON-parsing the body (`none` when the body is not valid JSON).
* The handler is embedded as a function returning the list of outbound
  requests it issues (its trace) together with its outcome: a JSON payload,
  an empty body (Python `None` return), or a raised exception.
-/

set_option autoImplicit false

/-- JSON values, as produced by Python's `json` parsing of a response body.
Numbers are modelled as integers (no claim involves non-integer numbers). -/
inductive Json where
  | null
  | bool (b : Bool)
  | num (n : Int)
  | str (s : String)
  | arr (elems : List Json)
  | obj (fields : List (String × Json))

/-- First-match lookup in a JSON object's field list (Python dicts have
unique keys, so first-match agrees with dict indexing). -/
def lookupField : List (String × Json) → String → Option Json
  | [], _ => none
  | (k1, v) :: rest, k => if k1 = k then some v else lookupField rest k

/-- Python subscription `j[k]`: succeeds exactly when `j` is an object
containing key `k`; any other case raises (`KeyError`/`TypeError`), which the
source catches, so it is modelled as `none`. -/
def jsonIndex : Json → String → Option Json
  | .obj fields, k => lookupField fields k
  | _, _ => none

/-- The lookup `r_json['result']['instanceImageUrl']` of line 29:
`none` iff some step of the chained subscription raises. -/
def resultImageUrl (j : Json) : Option Json :=
  (jsonIndex j "result").bind (fun r => jsonIndex r "instanceImageUrl")

/-- Python truthiness of a JSON value (`if img:` on line 46). -/
def jsonTruthy : Json → Bool
  | .null => false
  | .bool b => b
  | .num n => n != 0
  | .str s => s != ""
  | .arr elems => !elems.isEmpty
  | .obj fields => !fields.isEmpty

/-- Character-level embedding of Python `s.split(':')` (line 39): split on
every occurrence of `':'`, keeping empty parts, never returning `[]`. -/
def splitCharsColon : List Char → List (List Char)
  | [] => [[]]
  | c :: cs =>
    if c = ':' then [] :: splitCharsColon cs
    else
      match splitCharsColon cs with
      | [] => [[c]]
      | p :: ps => (c :: p) :: ps

/-- `t.split(':')` on strings. -/
def pySplit (t : String) : List String :=
  (splitCharsColon t.data).map String.mk

/-- Python `s or ''` for a string `s` (lines 20-21 when the argument is a
string): the empty string is falsy, so this is the identity on strings. -/
def pyOrEmpty (s : String) : String :=
  if s = "" then "" else s

/-- Python `x or ''` for `x` a string-or-None value (line 21 when
`text1 = None`). -/
def pyOrEmptyOpt : Option String → String
  | none => ""
  | some s => pyOrEmpty s

/-- `requests.get(url, params=...)` drops parameters whose value is `None`
(the credentials when the environment variables are unset); the remaining
parameters are sent in order. -/
def requestParams (ps : List (String × Option String)) : List (String × String) :=
  ps.filterMap fun p => p.2.map fun v => (p.1, v)

/-- The `params` dict of lines 16-24, in source order. `username`/`password`
come from `os.environ.get` and may be `None`. -/
def get_meme_params (username password : Option String) (image_id text0 : String)
    (text1 : Option String) : List (String × Option String) :=
  [("username", username),
   ("password", password),
   ("languageCode", some "en"),
   ("text0", some (pyOrEmpty text0)),
   ("text1", some (pyOrEmptyOpt text1)),
   ("imageID", some image_id),
   ("generatorID", some "6693723")]

/-- An outbound HTTP GET request: target URL and encoded query parameters. -/
structure MemeRequest where
  url : String
  params : List (String × String)
  deriving DecidableEq

/-- `MG_URL` constant (line 13). -/
def MG_URL : String := "http://version1.api.memegenerator.net/Instance_Create"

/-- `GAVIN_ID` constant (line 11), the default image-template identifier. -/
def GAVIN_ID : String := "16191858"

/-- An external HTTP response: success flag (`response.ok`), raw body text,
and the JSON parse of the body (`none` when `response.json()` would raise). -/
structure HttpResponse where
  ok : Bool
  raw : String
  parsed : Option Json

/-- Exceptions the handler can raise.
* `attributeError`: `None.split(':')` when the form lacks `text` (line 39);
* `jsonDecodeError doc`: `response.json()` on a non-JSON body (line 27); the
  decode error carries the offending document `doc`;
* `wrapped ctx`: the `raise Exception(r_json)` of line 31, carrying the
  parsed response body `ctx` as the exception's argument. -/
inductive PyError where
  | attributeError
  | jsonDecodeError (doc : String)
  | wrapped (ctx : Json)

/-- The single outbound request `get_meme` issues (lines 16-25). -/
def get_meme_request (username password : Option String) (image_id text0 : String)
    (text1 : Option String) : MemeRequest :=
  ⟨MG_URL, requestParams (get_meme_params username password image_id text0 text1)⟩

/-- Response processing of `get_meme` (lines 26-33):
* non-success status: fall off the function, returning Python `None`
  (`Except.ok none`);
* success status, body not valid JSON: `response.json()` raises (line 27,
  outside the `try`);
* success status, chained lookup raises: `raise Exception(r_json)` (line 31);
* otherwise return the looked-up value. -/
def get_meme_result (response : HttpResponse) : Except PyError (Option Json) :=
  if response.ok then
    match response.parsed with
    | none => .error (.jsonDecodeError response.raw)
    | some r_json =>
      match resultImageUrl r_json with
      | none => .error (.wrapped r_json)
      | some v => .ok (some v)
  else .ok none

/-- `get_meme` (lines 15-33): builds the request, issues it through the
oracle, and processes the response. Returns the issued request paired with
the outcome. -/
def get_meme (username password : Option String) (http : MemeRequest → HttpResponse)
    (image_id text0 : String) (text1 : Option String) :
    MemeRequest × Except PyError (Option Json) :=
  (get_meme_request username password image_id text0 text1,
   get_meme_result (http (get_meme_request username password image_id text0 text1)))

/-- The `jsonify(...)` payload of lines 47-55, with `img` in both
attachment fields. -/
def chatPayload (img : Json) : Json :=
  .obj [("response_type", .str "in_channel"),
        ("attachments", .arr [.obj [("text", img), ("image_url", img)]])]

/-- Outcome of one handler invocation: a JSON body, an empty body (the
`return None` of line 57), or a raised exception. -/
inductive HandlerOutcome where
  | payload (body : Json)
  | empty
  | raised (e : PyError)

/-- Lines 46-57: `if img: return jsonify(...) else: return None`, applied to
the result of `get_meme` (a raised exception propagates). -/
def handleImg : Except PyError (Option Json) → HandlerOutcome
  | .error e => .raised e
  | .ok none => .empty
  | .ok (some v) => if jsonTruthy v then .payload (chatPayload v) else .empty

/-- The handler `thinking` (lines 36-57). `form_text` is
`request.form.get('text')` (`none` when the form lacks the field, in which
case `.split` raises `AttributeError` before any outbound call). Returns the
trace of outbound requests together with the outcome. -/
def thinking (username password : Option String) (image_id : String)
    (form_text : Option String) (http : MemeRequest → HttpResponse) :
    List MemeRequest × HandlerOutcome :=
  match form_text with
  | none => ([], .raised .attributeError)
  | some t =>
    let args := pySplit t
    let text1 : Option String :=
      if args.length > 1 then some ((args.drop 1).headD "") else none
    let r := get_meme username password http image_id (args.headD "") text1
    ([r.1], handleImg r.2)

/-- The request a text-carrying invocation of `thinking` issues. -/
def thinkingRequest (username password : Option String) (image_id t : String) :
    MemeRequest :=
  get_meme_request username password image_id ((pySplit t).headD "")
    (if (pySplit t).length > 1 then some (((pySplit t).drop 1).headD "") else none)

/-- A `POST /` invocation (line 37): `image_id` takes its default `GAVIN_ID`
(line 38). -/
def thinkingRoot (username password : Option String) (form_text : Option String)
    (http : MemeRequest → HttpResponse) : List MemeRequest × HandlerOutcome :=
  thinking username password GAVIN_ID form_text http

/-- Lookup of a query parameter's value in an issued request. -/
def findParam : List (String × String) → String → Option String
  | [], _ => none
  | (k1, v) :: rest, k => if k1 = k then some v else findParam rest k

/-- Spec-side definition: the substring of `s` strictly before the first
`':'` (all of `s` when there is none). -/
def beforeFirstColon (s : String) : String :=
  String.mk (s.data.takeWhile (fun c => c != ':'))

/-- Spec-side definition: the entire substring of `s` strictly after the
first `':'`. -/
def afterFirstColon (s : String) : String :=
  String.mk ((s.data.dropWhile (fun c => c != ':')).tail)

/-- The exception value raised for a success-status response whose body
cannot yield `result.instanceImageUrl`: the JSON decode error carrying the
raw body when the body is not valid JSON, else the wrapping exception
carrying the parsed body. Either way the error context holds the original
response body. -/
def respError (response : HttpResponse) : PyError :=
  match response.parsed with
  | none => .jsonDecodeError response.raw
  | some j => .wrapped j

/-! ## Properties of the embedded `split(':')` -/

theorem splitCharsColon_ne_nil (l : List Char) : splitCharsColon l ≠ [] := by
  induction l with
  | nil => simp [splitCharsColon]
  | cons c cs ih =>
    unfold splitCharsColon
    split
    · simp
    · cases h : splitCharsColon cs <;> simp [h]

theorem splitCharsColon_headD (l : List Char) :
    (splitCharsColon l).headD [] = l.takeWhile (fun c => c != ':') := by
  induction l with
  | nil => rfl
  | cons c cs ih =>
    unfold splitCharsColon
    by_cases hc : c = ':'
    · simp [hc]
    · cases h : splitCharsColon cs with
      | nil => exact absurd h (splitCharsColon_ne_nil cs)
      | cons p ps =>
        have hp : p = cs.takeWhile (fun x => x != ':') := by
          rw [h] at ih; simpa using ih
        simp [hc, h, List.takeWhile_cons, hp]

theorem splitCharsColon_of_mem (l : List Char) (h : ':' ∈ l) :
    splitCharsColon l =
      l.takeWhile (fun c => c != ':') ::
        splitCharsColon ((l.dropWhile (fun c => c != ':')).tail) := by
  induction l with
  | nil => cases h
  | cons c cs ih =>
    by_cases hc : c = ':'
    · subst hc
      have hstep : splitCharsColon (':' :: cs) = [] :: splitCharsColon cs := by
        rw [splitCharsColon.eq_def]
        simp
      rw [hstep]
      simp [List.takeWhile_cons, List.dropWhile_cons]
    · have hmem : ':' ∈ cs := by
        rcases List.mem_cons.mp h with h1 | h1
        · exact absurd h1.symm hc
        · exact h1
      cases hsp : splitCharsColon cs with
      | nil => exact absurd hsp (splitCharsColon_ne_nil cs)
      | cons p ps =>
        have hcs := ih hmem
        rw [hsp] at hcs
        have hpq : p = cs.takeWhile (fun x => x != ':') ∧
            ps = splitCharsColon ((cs.dropWhile (fun x => x != ':')).tail) := by
          simpa [List.cons.injEq] using hcs
        have hstep : splitCharsColon (c :: cs) = (c :: p) :: ps := by
          rw [splitCharsColon.eq_def]
          simp [hc, hsp]
        have hcb : (c != ':') = true := by simp [hc]
        rw [hstep]
        simp [List.takeWhile_cons, List.dropWhile_cons, hcb, hpq.1, hpq.2]

theorem splitCharsColon_of_not_mem (l : List Char) (h : ':' ∉ l) :
    splitCharsColon l = [l] := by
  induction l with
  | nil => rfl
  | cons c cs ih =>
    have hc : ¬(c = ':') := fun e => h (e ▸ List.mem_cons_self c cs)
    have hcs : ':' ∉ cs := fun m => h (List.mem_cons_of_mem c m)
    unfold splitCharsColon
    simp [hc, ih hcs]

theorem splitCharsColon_length (l : List Char) :
    (splitCharsColon l).length = l.count ':' + 1 := by
  induction l with
  | nil => rfl
  | cons c cs ih =>
    unfold splitCharsColon
    by_cases hc : c = ':'
    · simp [hc, List.count_cons, ih]
    · cases hsp : splitCharsColon cs with
      | nil => exact absurd hsp (splitCharsColon_ne_nil cs)
      | cons p ps =>
        rw [hsp] at ih
        simp [hc, hsp, List.count_cons, Ne.symm hc] at ih ⊢
        omega

theorem pySplit_ne_nil (t : String) : pySplit t ≠ [] := by
  simp only [pySplit, ne_eq, List.map_eq_nil_iff]
  exact splitCharsColon_ne_nil t.data

theorem pySplit_headD (t : String) :
    (pySplit t).headD "" = beforeFirstColon t := by
  unfold pySplit beforeFirstColon
  cases h : splitCharsColon t.data with
  | nil => exact absurd h (splitCharsColon_ne_nil _)
  | cons p ps =>
    have hp := splitCharsColon_headD t.data
    rw [h] at hp
    simp only [List.headD_cons] at hp
    rw [List.map_cons, List.headD_cons, hp]

theorem pySplit_length (t : String) :
    (pySplit t).length = t.data.count ':' + 1 := by
  simp [pySplit, splitCharsColon_length]

theorem pySplit_second (t : String) (h : ':' ∈ t.data) :
    ((pySplit t).drop 1).headD "" = beforeFirstColon (afterFirstColon t) := by
  unfold pySplit
  rw [splitCharsColon_of_mem t.data h]
  cases h2 : splitCharsColon ((t.data.dropWhile (fun c => c != ':')).tail) with
  | nil => exact absurd h2 (splitCharsColon_ne_nil _)
  | cons q qs =>
    have h3 := splitCharsColon_headD ((t.data.dropWhile (fun c => c != ':')).tail)
    rw [h2] at h3
    simp only [List.headD_cons] at h3
    rw [List.map_cons, List.drop_one, List.tail_cons, List.map_cons,
      List.headD_cons, h3]
    rfl

/-! ## Helper lemmas about the handler -/

theorem thinking_trace (u p : Option String) (iid t : String)
    (http : MemeRequest → HttpResponse) :
    (thinking u p iid (some t) http).1 = [thinkingRequest u p iid t] := rfl

theorem thinking_outcome (u p : Option String) (iid t : String)
    (http : MemeRequest → HttpResponse) :
    (thinking u p iid (some t) http).2 =
      handleImg (get_meme_result (http (thinkingRequest u p iid t))) := rfl

theorem pyOrEmpty_eq (s : String) : pyOrEmpty s = s := by
  unfold pyOrEmpty
  split <;> simp_all

theorem findParam_get_meme (u p : Option String) (iid t0 : String)
    (t1 : Option String) :
    findParam (get_meme_request u p iid t0 t1).params "text0" = some (pyOrEmpty t0) ∧
    findParam (get_meme_request u p iid t0 t1).params "text1" = some (pyOrEmptyOpt t1) ∧
    findParam (get_meme_request u p iid t0 t1).params "imageID" = some iid := by
  cases u <;> cases p <;>
    simp [get_meme_request, get_meme_params, requestParams, findParam]

theorem text1_sent (t : String) :
    pyOrEmptyOpt
        (if (pySplit t).length > 1 then some (((pySplit t).drop 1).headD "") else none)
      = ((pySplit t).drop 1).headD "" := by
  split
  · simp [pyOrEmptyOpt, pyOrEmpty_eq]
  · rename_i hlen
    have hpos : 0 < (pySplit t).length :=
      List.length_pos.mpr (pySplit_ne_nil t)
    have h1 : (pySplit t).length = 1 := by omega
    obtain ⟨a, ha⟩ := List.length_eq_one.mp h1
    simp [ha, pyOrEmptyOpt]

/-! ## The claims -/

/-- Claim C1: for every external response with a success HTTP status whose
JSON body contains `result.instanceImageUrl` equal to a URL string `url`
(a URL is in particular nonempty), the handler returns the chat payload
`{"response_type": "in_channel", "attachments": [{"text": url,
"image_url": url}]}`, with both attachment fields equal to the extracted
URL. -/
theorem C1_success_payload (u p : Option String) (iid t url : String)
    (http : MemeRequest → HttpResponse) (j : Json)
    (hok : (http (thinkingRequest u p iid t)).ok = true)
    (hparsed : (http (thinkingRequest u p iid t)).parsed = some j)
    (hurl : resultImageUrl j = some (.str url))
    (hne : url ≠ "") :
    (thinking u p iid (some t) http).2 =
      .payload (.obj [("response_type", .str "in_channel"),
        ("attachments", .arr [.obj [("text", .str url), ("image_url", .str url)]])]) := by
  rw [thinking_outcome]
  simp [get_meme_result, hok, hparsed, hurl, handleImg, jsonTruthy, hne, chatPayload]

/-- Witness for C1 at a concrete stubbed response. -/
theorem C1_success_payload_witness :
    (thinking (some "user") (some "pw") GAVIN_ID (some "a:b")
        (fun _ => ⟨true, "",
          some (.obj [("result", .obj [("instanceImageUrl", .str "http://x/y.jpg")])])⟩)).2
      = .payload (.obj [("response_type", .str "in_channel"),
          ("attachments", .arr [.obj [("text", .str "http://x/y.jpg"),
            ("image_url", .str "http://x/y.jpg")]])]) :=
  C1_success_payload (some "user") (some "pw") GAVIN_ID "a:b" "http://x/y.jpg"
    (fun _ => ⟨true, "",
      some (.obj [("result", .obj [("instanceImageUrl", .str "http://x/y.jpg")])])⟩)
    (.obj [("result", .obj [("instanceImageUrl", .str "http://x/y.jpg")])])
    rfl rfl rfl (by decide)

/-- Claim C2 fails as stated: on `"a:b:c"` the handler sends `text1 = "b"`
(the part between the first and second colon), not the entire substring
`"b:c"` after the first colon, because Python's `split(':')` splits on every
colon. -/
theorem C2_counterexample :
    findParam (thinkingRequest (some "user") (some "pw") GAVIN_ID "a:b:c").params
        "text1" = some "b"
      ∧ (some "b" : Option String) ≠ some (afterFirstColon "a:b:c") := by
  constructor
  · rfl
  · intro h
    have : ("b" : String) = "b:c" := by
      have h2 : afterFirstColon "a:b:c" = "b:c" := rfl
      rw [h2] at h
      exact Option.some.inj h
    simp at this

/-- Claim C2 (amended): for every form text containing at least one `:`, the
outbound request's `text0` is the substring before the first `:` and `text1`
is the substring strictly between the first `:` and the following `:` (the
whole remainder when the text holds exactly one `:`), both verbatim with no
trimming. -/
theorem C2_amended_split (u p : Option String) (iid t : String)
    (h : ':' ∈ t.data) :
    findParam (thinkingRequest u p iid t).params "text0"
        = some (beforeFirstColon t) ∧
    findParam (thinkingRequest u p iid t).params "text1"
        = some (beforeFirstColon (afterFirstColon t)) := by
  have hlen : (pySplit t).length > 1 := by
    rw [pySplit_length]
    have hp := List.count_pos_iff.mpr h
    omega
  unfold thinkingRequest
  rw [if_pos hlen]
  obtain ⟨hx, hy, _⟩ := findParam_get_meme u p iid ((pySplit t).headD "")
    (some (((pySplit t).drop 1).headD ""))
  refine ⟨?_, ?_⟩
  · rw [hx, pyOrEmpty_eq, pySplit_headD]
  · rw [hy]
    simp only [pyOrEmptyOpt, pyOrEmpty_eq]
    rw [pySplit_second t h]

/-- Witness for the amended C2 at `"x:y"`. -/
theorem C2_amended_split_witness :
    ':' ∈ ("x:y" : String).data ∧
      (findParam (thinkingRequest (some "u") (some "p") GAVIN_ID "x:y").params "text0"
          = some (beforeFirstColon "x:y") ∧
        findParam (thinkingRequest (some "u") (some "p") GAVIN_ID "x:y").params "text1"
          = some (beforeFirstColon (afterFirstColon "x:y"))) :=
  ⟨by decide, C2_amended_split (some "u") (some "p") GAVIN_ID "x:y" (by decide)⟩

/-- Claim C3: for every external response whose HTTP status is not a success
status, the handler returns an empty result (the Python `None` body) and
raises no exception. -/
theorem C3_failure_empty (u p : Option String) (iid t : String)
    (http : MemeRequest → HttpResponse)
    (hok : (http (thinkingRequest u p iid t)).ok = false) :
    (thinking u p iid (some t) http).2 = .empty := by
  rw [thinking_outcome]
  simp [get_meme_result, hok, handleImg]

/-- Witness for C3 at a concrete failing response. -/
theorem C3_failure_empty_witness :
    (thinking (some "user") (some "pw") GAVIN_ID (some "a:b")
        (fun _ => ⟨false, "", none⟩)).2 = .empty :=
  C3_failure_empty (some "user") (some "pw") GAVIN_ID "a:b"
    (fun _ => ⟨false, "", none⟩) rfl

/-- Claim C4: for every external response with a success HTTP status whose
body is not valid JSON or whose JSON lacks the path
`result.instanceImageUrl`, the handler raises an error whose context carries
the original response body (the raw text for a decode failure, the parsed
body for the wrapping exception, per `respError`), and this error is not
recovered: the outcome is `raised`, neither a chat payload nor an empty
body. -/
theorem C4_shape_error (u p : Option String) (iid t : String)
    (http : MemeRequest → HttpResponse)
    (hok : (http (thinkingRequest u p iid t)).ok = true)
    (hbad : (http (thinkingRequest u p iid t)).parsed = none ∨
      ∃ j, (http (thinkingRequest u p iid t)).parsed = some j ∧
        resultImageUrl j = none) :
    (thinking u p iid (some t) http).2
      = .raised (respError (http (thinkingRequest u p iid t))) := by
  rw [thinking_outcome]
  rcases hbad with hnone | ⟨j, hj, hurl⟩
  · simp [get_meme_result, hok, hnone, handleImg, respError]
  · simp [get_meme_result, hok, hj, hurl, handleImg, respError]

/-- Witness for C4 at a success-status response whose body is not JSON. -/
theorem C4_shape_error_witness :
    (thinking (some "user") (some "pw") GAVIN_ID (some "a:b")
        (fun _ => ⟨true, "oops", none⟩)).2
      = .raised (respError ⟨true, "oops", none⟩) :=
  C4_shape_error (some "user") (some "pw") GAVIN_ID "a:b"
    (fun _ => ⟨true, "oops", none⟩) rfl (Or.inl rfl)

/-- Claim C5: for every form text containing two or more `:` characters,
only the first two parts of the split are used: the issued request is
exactly the one built from the first part as `text0` and the second part as
`text1`, so the remaining parts appear nowhere in the outbound meme
request. -/
theorem C5_extra_parts_ignored (u p : Option String) (iid t : String)
    (http : MemeRequest → HttpResponse) (h : 2 ≤ t.data.count ':') :
    (thinking u p iid (some t) http).1 =
      [get_meme_request u p iid ((pySplit t).headD "")
        (some (((pySplit t).drop 1).headD ""))] := by
  rw [thinking_trace]
  have hlen : (pySplit t).length > 1 := by
    rw [pySplit_length]
    omega
  unfold thinkingRequest
  rw [if_pos hlen]

/-- Witness for C5 at `"a:b:c:d"`. -/
theorem C5_extra_parts_ignored_witness :
    2 ≤ ("a:b:c:d" : String).data.count ':' ∧
      (thinking (some "u") (some "p") GAVIN_ID (some "a:b:c:d")
          (fun _ => ⟨false, "", none⟩)).1 =
        [get_meme_request (some "u") (some "p") GAVIN_ID
          ((pySplit "a:b:c:d").headD "") (some (((pySplit "a:b:c:d").drop 1).headD ""))] :=
  ⟨by decide, C5_extra_parts_ignored (some "u") (some "p") GAVIN_ID "a:b:c:d"
    (fun _ => ⟨false, "", none⟩) (by decide)⟩

/-- Claim C6: for every form text containing no `:`, the outbound request's
`text0` equals the full text verbatim and `text1` is the empty string (the
empty string substituted for the absent caption). -/
theorem C6_no_colon (u p : Option String) (iid t : String)
    (h : ':' ∉ t.data) :
    findParam (thinkingRequest u p iid t).params "text0" = some t ∧
    findParam (thinkingRequest u p iid t).params "text1" = some "" := by
  have hsp : pySplit t = [t] := by
    unfold pySplit
    rw [splitCharsColon_of_not_mem t.data h]
    simp
  unfold thinkingRequest
  rw [hsp]
  rw [if_neg (by simp)]
  obtain ⟨hx, hy, _⟩ := findParam_get_meme u p iid ([t].headD "") none
  refine ⟨?_, ?_⟩
  · rw [hx]
    simp [pyOrEmpty_eq]
  · rw [hy]
    rfl

/-- Witness for C6 at `"hello"`. -/
theorem C6_no_colon_witness :
    ':' ∉ ("hello" : String).data ∧
      (findParam (thinkingRequest (some "u") (some "p") GAVIN_ID "hello").params "text0"
          = some "hello" ∧
        findParam (thinkingRequest (some "u") (some "p") GAVIN_ID "hello").params "text1"
          = some "") :=
  ⟨by decide, C6_no_colon (some "u") (some "p") GAVIN_ID "hello" (by decide)⟩

/-- Claim C7: every invocation of the handler carrying a form `text` (the
required field) with the configured credentials issues exactly one outbound
HTTP GET request to `http://version1.api.memegenerator.net/Instance_Create`,
whose query parameters are exactly `username`, `password`, `languageCode`
with constant value `"en"`, `text0`, `text1`, `imageID`, and `generatorID`
with constant value `"6693723"`. -/
theorem C7_request_shape (us ps iid t : String)
    (http : MemeRequest → HttpResponse) :
    (thinking (some us) (some ps) iid (some t) http).1 =
      [⟨MG_URL,
        [("username", us), ("password", ps), ("languageCode", "en"),
         ("text0", (pySplit t).headD ""), ("text1", ((pySplit t).drop 1).headD ""),
         ("imageID", iid), ("generatorID", "6693723")]⟩] := by
  rw [thinking_trace]
  unfold thinkingRequest get_meme_request
  simp only [get_meme_params]
  rw [text1_sent]
  simp [requestParams, pyOrEmpty_eq]

/-- Claim C8: a `POST` to the bare root path (no path-embedded image
identifier) runs the handler with the default identifier `GAVIN_ID`, and the
outbound meme request carries `imageID = "16191858"`. -/
theorem C8_default_image (u p : Option String) (t : String)
    (http : MemeRequest → HttpResponse) :
    (thinkingRoot u p (some t) http).1 = [thinkingRequest u p GAVIN_ID t] ∧
    findParam (thinkingRequest u p GAVIN_ID t).params "imageID" = some "16191858" := by
  refine ⟨thinking_trace u p GAVIN_ID t http, ?_⟩
  unfold thinkingRequest
  exact (findParam_get_meme u p GAVIN_ID ((pySplit t).headD "")
    (if (pySplit t).length > 1 then some (((pySplit t).drop 1).headD "") else none)).2.2

/-- Claim C9: if the external response has a success HTTP status and its
JSON body contains `result.instanceImageUrl` equal to the empty string, the
handler returns the empty (declined) result rather than a chat attachment
payload: the extracted URL is tested for truthiness, and `""` is falsy. -/
theorem C9_empty_url_declined (u p : Option String) (iid t : String)
    (http : MemeRequest → HttpResponse) (j : Json)
    (hok : (http (thinkingRequest u p iid t)).ok = true)
    (hparsed : (http (thinkingRequest u p iid t)).parsed = some j)
    (hurl : resultImageUrl j = some (.str "")) :
    (thinking u p iid (some t) http).2 = .empty := by
  rw [thinking_outcome]
  simp [get_meme_result, hok, hparsed, hurl, handleImg, jsonTruthy]

/-- Witness for C9 at a concrete response carrying an empty URL. -/
theorem C9_empty_url_declined_witness :
    (thinking (some "user") (some "pw") GAVIN_ID (some "a:b")
        (fun _ => ⟨true, "",
          some (.obj [("result", .obj [("instanceImageUrl", .str "")])])⟩)).2 = .empty :=
  C9_empty_url_declined (some "user") (some "pw") GAVIN_ID "a:b"
    (fun _ => ⟨true, "",
      some (.obj [("result", .obj [("instanceImageUrl", .str "")])])⟩)
    (.obj [("result", .obj [("instanceImageUrl", .str "")])])
    rfl rfl rfl

/-- Claim C10: for every inbound request whose form body lacks the `text`
field entirely, the handler raises (calling `.split` on `None`) before any
outbound network call: its trace of issued requests is empty and its outcome
is the raised `AttributeError`. -/
theorem C10_missing_text (u p : Option String) (iid : String)
    (http : MemeRequest → HttpResponse) :
    thinking u p iid none http = ([], .raised .attributeError) := rfl
